import Mathlib

/-!
Verification of the PDF-Web-Assistant repository.

This file gives a shallow embedding, in Lean 4, of the core logic of the
repository (src/pdf_retrieval.py, src/tavily_tool.py, src/agent.py,
src/history.py, src/document_storage.py) and proves properties of it.

Modelling conventions:
- Python strings are Lean `String`; Python slicing and membership are modelled
  at the code-point level (`pySlice`, `strContains`).
- Floating point scores from FAISS are modelled as rationals `ℚ`; the
  similarity conversion `1 / (1 + d)` and the threshold `0.4 = 2/5` are exact.
- External collaborators (the FAISS index query, the Tavily HTTP client, the
  LLM, the PDF loader and text splitter, MongoDB inserts) are modelled as
  oracle inputs: a call either returns a value or fails, exactly the two
  behaviours the Python code distinguishes with try/except.
- MongoDB collections are modelled as in-memory append-only lists; documents
  are sorted by insertion order, which coincides with ascending-timestamp
  order used by the queries in src/history.py.
-/

/-- Python `s.startswith(p)` at the code-point level: the first
`p.length` characters of `s` are exactly `p`. -/
def pyStartswith (s p : String) : Bool :=
  s.data.take p.data.length == p.data

/-- Occurrence of a code-point pattern anywhere in a haystack. -/
def containsSub : List Char → List Char → Bool
  | [], pat => pat.isEmpty
  | c :: rest, pat => (c :: rest).take pat.length == pat || containsSub rest pat

/-- Python `pat in s` substring containment at the code-point level. -/
def strContains (s pat : String) : Bool :=
  containsSub s.data pat.data

/-- Python `s[:n]` code-point slicing. -/
def pySlice (s : String) (n : Nat) : String :=
  String.mk (s.data.take n)

/-- Python `s.strip()`: leading and trailing whitespace removed (modelled
over ASCII whitespace). -/
def pyStrip (s : String) : String :=
  String.mk (((s.data.dropWhile Char.isWhitespace).reverse.dropWhile
    Char.isWhitespace).reverse)

/-- Python `s.lower()` (ASCII case folding). -/
def pyLower (s : String) : String :=
  String.mk (s.data.map Char.toLower)

/-- Python `s.endswith(p)` at the code-point level: the final
`p.length` characters of `s` are exactly `p`. -/
def pyEndswith (s p : String) : Bool :=
  s.data.drop (s.data.length - p.data.length) == p.data

/-- Python `s.capitalize()`: first character upper-cased, the rest
lower-cased. -/
def pyCapitalize (s : String) : String :=
  match s.data with
  | [] => ""
  | c :: cs => String.mk (c.toUpper :: cs.map Char.toLower)

/-! ## src/pdf_retrieval.py -/

/-- Similarity conversion from `pdf_retrieval.py` line 27/30:
`similarity = 1 / (1 + score)` where `score` is the raw FAISS distance. -/
def sim (d : ℚ) : ℚ := 1 / (1 + d)

/-- The retention test of `pdf_retrieval.py` line 30: a `(page_content, score)`
pair is kept iff `(1 / (1 + score)) > 0.4 and doc.page_content.strip()`. -/
def retainB (p : String × ℚ) : Bool :=
  decide ((2 : ℚ) / 5 < sim p.2) && decide (pyStrip p.1 ≠ "")

/-- The sub-list of raw results retained by the comprehension on line 30 of
`pdf_retrieval.py` (before projecting to the stripped text). -/
def retainedPairs (rs : List (String × ℚ)) : List (String × ℚ) :=
  rs.filter retainB

/-- The `relevant_content` list of `pdf_retrieval.py` line 30: stripped text
of every retained result, in order. -/
def relevant_content (rs : List (String × ℚ)) : List String :=
  (retainedPairs rs).map (fun p => pyStrip p.1)

/-- Outcome of `vector_store.similarity_search_with_score(query, k=3)`:
either the call raises (caught by the surrounding `except`), or it returns a
list of `(page_content, score)` pairs. -/
inductive SearchOutcome where
  | failure (msg : String)
  | results (rs : List (String × ℚ))
deriving DecidableEq

/-- The body of `pdf_retrieval_tool` in `pdf_retrieval.py`. `none` models
`vector_store is None`; `SearchOutcome.failure` models an exception during
the index query; `SearchOutcome.results` is the raw result list. -/
def pdf_retrieval_tool (vector_store : Option SearchOutcome) : String :=
  match vector_store with
  | none => "Error: No PDF documents uploaded yet."
  | some (SearchOutcome.failure e) =>
      "Error: Failed to process PDF retrieval - " ++ e
  | some (SearchOutcome.results rs) =>
      if rs.isEmpty then "NO_RELEVANT_CONTENT"
      else
        let rc := relevant_content rs
        if rc.isEmpty then "NO_RELEVANT_CONTENT"
        else "PDF Content: " ++ String.intercalate "\n\n" (rc.take 2)

/-! ## src/tavily_tool.py -/

/-- One raw result from the external search capability: an optional `url`
field and an optional `content` field (Python `result.get(...)`). -/
structure WebResult where
  url : Option String
  content : Option String
deriving DecidableEq

/-- The `tavily_tool` client configured with `max_results=5` in
`tavily_tool.py` lines 21-25: of whatever the provider has, at most 5 raw
results are returned. -/
def tavily_tool_invoke (provider : List WebResult) : List WebResult :=
  provider.take 5

/-- Formatting of one selected snippet, `tavily_tool.py` line 40:
`Source i (url): content[:400]...` with the defaults `No URL` and
`No content` for missing fields. -/
def snippetText (i : Nat) (r : WebResult) : String :=
  "Source " ++ toString i ++ " (" ++ r.url.getD "No URL" ++ "): " ++
    pySlice (r.content.getD "No content") 400 ++ "..."

/-- The `(i, result)` pairs selected on line 41 of `tavily_tool.py`:
`enumerate(results[:3], 1)` filtered by non-blank stripped content. -/
def selectedPairs (results : List WebResult) : List (Nat × WebResult) :=
  (List.enumFrom 1 (results.take 3)).filter
    (fun p => decide (pyStrip (p.2.content.getD "") ≠ ""))

/-- The `content_parts` list of `tavily_tool.py` lines 40-41. -/
def content_parts (results : List WebResult) : List String :=
  (selectedPairs results).map (fun p => snippetText p.1 p.2)

/-- Outcome of `tavily_tool.invoke(query)`: either the call raises (caught by
the surrounding `except`), or the provider answers with a raw result list. -/
inductive TavilyOutcome where
  | failure (msg : String)
  | ok (provider : List WebResult)
deriving DecidableEq

/-- The body of `tavily_search_tool` in `tavily_tool.py` lines 28-49. -/
def tavily_search_tool (outcome : TavilyOutcome) : String :=
  match outcome with
  | TavilyOutcome.failure e => "Error: Unable to fetch web results - " ++ e
  | TavilyOutcome.ok provider =>
      let results := tavily_tool_invoke provider
      if results.isEmpty then "No web results found"
      else
        let parts := content_parts results
        if parts.isEmpty then "No relevant web content found"
        else "Web Search Results: " ++ String.intercalate "\n\n" parts

/-! ## src/agent.py — graph nodes and workflow -/

/-- A LangChain message: `HumanMessage` or `AIMessage`. -/
inductive Msg where
  | human (content : String)
  | ai (content : String)
deriving DecidableEq

/-- The content of a message. -/
def Msg.content : Msg → String
  | Msg.human c => c
  | Msg.ai c => c

/-- The `State` TypedDict of `agent.py` lines 41-48 (the `add_messages`
reducer appends to `messages`). -/
structure AgentState where
  messages : List Msg
  query : String
  thread_id : String
  pdf_searched : Bool
  web_searched : Bool
  final_answer : String
  pdf_found_content : Bool
deriving DecidableEq

/-- The prompt built in `pdf_search_node`, `agent.py` lines 66-73. -/
def pdfPrompt (query pdf_result : String) : String :=
  "\nBased on the following information from the PDF document, provide a clear and comprehensive answer to the user\x27s query: \"" ++
    query ++ "\"\n\nPDF Information:\n" ++ pdf_result ++
    "\n\nPlease provide a well-structured response based on the PDF content. Make sure to be specific and accurate.\n"

/-- The prompt built in `web_search_node`, `agent.py` lines 104-111. -/
def webPrompt (query web_result : String) : String :=
  "\nThe user asked: \"" ++ query ++
    "\"\n\nThe information was not found in the PDF document, so I searched the web and found the following:\n\n" ++
    web_result ++
    "\n\nProvide a clear and comprehensive answer based solely on these web search results. If the web results are not relevant or insufficient, state clearly: \"The web search results do not contain enough information to answer the query. "

/-- An LLM oracle: `llm.invoke` on a prompt either returns text or raises
(`none`), which the nodes catch and replace by an extractive fallback. -/
def LLM : Type := String → Option String

/-- `pdf_search_node`, `agent.py` lines 50-97. The captured `vector_store`
together with the behaviour of its similarity query for the current state is
`vs : Option SearchOutcome` (`none` = `vector_store is None`). -/
def pdf_search_node (llm : LLM) (vs : Option SearchOutcome) (st : AgentState) :
    AgentState :=
  match vs with
  | none =>
      { st with
        pdf_searched := true
        web_searched := false
        final_answer := "Error: No PDF documents uploaded yet."
        pdf_found_content := false
        messages := st.messages ++ [Msg.ai "Error: No PDF documents uploaded yet."] }
  | some outcome =>
      let pdf_result := pdf_retrieval_tool (some outcome)
      if pdf_result != "NO_RELEVANT_CONTENT" && !(pyStartswith pdf_result "Error:") then
        let fa := (llm (pdfPrompt st.query pdf_result)).getD
          ("Based on the PDF: " ++ pdf_result)
        { st with
          pdf_searched := true
          web_searched := false
          final_answer := fa
          pdf_found_content := true
          messages := st.messages ++ [Msg.ai fa] }
      else
        { st with
          pdf_searched := true
          web_searched := false
          final_answer := ""
          pdf_found_content := false
          messages := st.messages ++ [Msg.ai "Information not found in PDF, searching web..."] }

/-- The LangGraph terminal node constant `END`. -/
def ENDnode : String := "__end__"

/-- `route_after_pdf`, `agent.py` lines 127-129. -/
def route_after_pdf (st : AgentState) : String :=
  if st.pdf_found_content then ENDnode else "web_search"

/-- `web_search_node`, `agent.py` lines 99-125; `webOutcome` is the behaviour
of the Tavily call for this query. -/
def web_search_node (llm : LLM) (webOutcome : TavilyOutcome) (st : AgentState) :
    AgentState :=
  let web_result := tavily_search_tool webOutcome
  let fa := (llm (webPrompt st.query web_result)).getD
    ("Based on web search: " ++ web_result)
  { st with
    web_searched := true
    final_answer := fa
    messages := st.messages ++ [Msg.ai fa] }

/-- One invocation of the compiled workflow of `create_workflow`,
`agent.py` lines 139-150: `__start__ → pdf_search`, then the conditional
edge `route_after_pdf`, then (possibly) `web_search → END`. -/
def run_workflow (llm : LLM) (vs : Option SearchOutcome)
    (webOutcome : TavilyOutcome) (st : AgentState) : AgentState :=
  let st1 := pdf_search_node llm vs st
  if route_after_pdf st1 == ENDnode then st1
  else web_search_node llm webOutcome st1

/-! ## src/history.py — sessions and chat history -/

/-- The two MongoDB collections used by `ChatHistoryStorage`: `sessions`
(list of session ids, insertion-ordered) and `chat_history` (triples
`(session_id, role, content)`, insertion-ordered; insertion order coincides
with ascending `timestamp`). -/
structure Storage where
  sessions : List String
  history : List (String × String × String)
deriving DecidableEq

/-- `ChatHistoryStorage.save_session`, `history.py` lines 88-106 (the
success path of the MongoDB insert). -/
def save_session (st : Storage) (session_id : String) : Storage × Bool :=
  if session_id == "" then (st, false)
  else ({ st with sessions := st.sessions ++ [session_id] }, true)

/-- `ChatHistoryStorage.get_session`, `history.py` lines 108-116, reduced to
the existence test that `save_message` uses it for. -/
def get_session (st : Storage) (session_id : String) : Bool :=
  st.sessions.contains session_id

/-- `ChatHistoryStorage.save_message`, `history.py` lines 132-159:
validates `all([session_id, message, role])` and
`role in ["user", "assistant", "system"]`, creates the session record if
absent, then appends the turn. -/
def save_message (st : Storage) (session_id message role : String) :
    Storage × Bool :=
  if session_id == "" || message == "" || role == "" then (st, false)
  else if !(role == "user" || role == "assistant" || role == "system") then
    (st, false)
  else
    let st1 := if get_session st session_id then st else (save_session st session_id).1
    ({ st1 with history := st1.history ++ [(session_id, role, message)] }, true)

/-- `ChatHistoryStorage.load_history`, `history.py` lines 161-170:
a find filtered by the session id, sorted by ascending timestamp, limited —
so the FIRST
`limit` turns of the session in ascending timestamp order, projected to
`(role, content)`. -/
def load_history (st : Storage) (session_id : String) (limit : Nat) :
    List (String × String) :=
  (((st.history.filter (fun t => t.1 == session_id)).map
    (fun t => (t.2.1, t.2.2))).take limit)

/-! ## src/agent.py — RAGPipeline -/

/-- The retrospective cue words of `RAGPipeline.query`, `agent.py` line 198. -/
def cueWords : List String :=
  ["earlier", "previous", "before", "last", "what did you say"]

/-- The `history_relevant` test of `agent.py` lines 197-199:
`any(keyword in user_query.lower() for keyword in ...)`. -/
def historyRelevant (user_query : String) : Bool :=
  cueWords.any (fun k => strContains (pyLower user_query) k)

/-- The `history_context` string of `agent.py` lines 174-179: role-labelled
user/assistant turns with non-blank content, joined by newlines. -/
def historyContext (history : List (String × String)) : String :=
  String.intercalate "\n"
    (history.filterMap (fun msg =>
      if (msg.1 == "user" || msg.1 == "assistant") && !(pyStrip msg.2 == "") then
        some (pyCapitalize msg.1 ++ ": " ++ msg.2)
      else none))

/-- The history-aware prompt of `agent.py` lines 202-211. -/
def historyPrompt (history_context user_query : String) : String :=
  "\nConversation History:\n" ++ history_context ++
    "\n\nCurrent Query: " ++ user_query ++
    "\n\nPlease answer the query, taking into account the conversation history if relevant. \nIf the query refers to prior messages, use the history to provide a context-aware response. \nOtherwise, proceed with the standard retrieval process using the PDF or web search tools.\n"

/-- The fixed apology of `agent.py` line 229. -/
def apologyText : String :=
  "I apologize, but I couldn\x27t find relevant information to answer your question."

/-- The parts of `RAGPipeline` state that `query` reads: the chat storage,
the document processor vector store (given with the behaviour of its
similarity query for the current query), and whether the graph was built. -/
structure Pipeline where
  storage : Storage
  vector_store : Option SearchOutcome
  graph : Bool
deriving DecidableEq

/-- The observable outcome of one `RAGPipeline.query` call: the new pipeline
state, the returned answer, and — when the graph was invoked and returned —
its final `AgentState` (`none` when the graph never ran or raised). -/
structure QueryResult where
  pipeline : Pipeline
  answer : String
  graphRun : Option AgentState
deriving DecidableEq

/-- `RAGPipeline.query`, `agent.py` lines 168-242. `graphFails = some e`
models `self.graph.invoke` raising exception `e`, which lands in the
`except` block of lines 235-242; all other external failures are already
caught inside the nodes and tools. -/
def RAGPipeline.query (llm : LLM) (webOutcome : TavilyOutcome)
    (graphFails : Option String) (p : Pipeline)
    (user_query thread_id : String) : QueryResult :=
  let history := load_history p.storage thread_id 10
  let history_context := historyContext history
  match p.vector_store with
  | none =>
      let st := (save_message p.storage thread_id user_query "user").1
      let error_message :=
        "Error: No PDF documents uploaded yet. Please upload a PDF first."
      let st := (save_message st thread_id error_message "assistant").1
      ⟨{ p with storage := st }, error_message, none⟩
  | some vs =>
      let p1 : Pipeline := { p with graph := true }
      let prompt_prefix :=
        if historyRelevant user_query && !(history_context == "") then
          historyPrompt history_context user_query
        else "Current Query: " ++ user_query
      match graphFails with
      | some e =>
          let error_message :=
            "Sorry, I encountered an error while processing your query: " ++ e
          let st := (save_message p1.storage thread_id user_query "user").1
          let st := (save_message st thread_id error_message "assistant").1
          ⟨{ p1 with storage := st }, error_message, none⟩
      | none =>
          let initial_state : AgentState :=
            ⟨[Msg.human prompt_prefix], user_query, thread_id,
              false, false, "", false⟩
          let result := run_workflow llm (some vs) webOutcome initial_state
          let answer0 := result.final_answer
          let answer := if pyStrip answer0 == "" then apologyText else answer0
          let st := (save_message p1.storage thread_id user_query "user").1
          let st := (save_message st thread_id answer "assistant").1
          ⟨{ p1 with storage := st }, answer, some result⟩

/-- The prompt the graph was started with: the content of the initial
`HumanMessage` of the recorded run (empty when the graph never ran). -/
def promptOf (r : QueryResult) : String :=
  match r.graphRun with
  | some st =>
      match st.messages with
      | Msg.human c :: _ => c
      | _ => ""
  | none => ""

/-! ## src/document_storage.py — ingestion

The content fingerprint is `hashlib.sha256(file_bytes).hexdigest()`; SHA-256
is implemented here over byte lists, words as `Nat` reduced mod `2 ^ 32`. -/

/-- Truncation to a 32-bit word. -/
def w32 (n : Nat) : Nat := n % 4294967296

/-- 32-bit right rotation. -/
def rotr32 (x n : Nat) : Nat := w32 ((x >>> n) ||| (x <<< (32 - n)))

/-- SHA-256 small sigma 0. -/
def ssig0 (x : Nat) : Nat := (rotr32 x 7) ^^^ (rotr32 x 18) ^^^ (x >>> 3)

/-- SHA-256 small sigma 1. -/
def ssig1 (x : Nat) : Nat := (rotr32 x 17) ^^^ (rotr32 x 19) ^^^ (x >>> 10)

/-- SHA-256 big sigma 0. -/
def bsig0 (x : Nat) : Nat := (rotr32 x 2) ^^^ (rotr32 x 13) ^^^ (rotr32 x 22)

/-- SHA-256 big sigma 1. -/
def bsig1 (x : Nat) : Nat := (rotr32 x 6) ^^^ (rotr32 x 11) ^^^ (rotr32 x 25)

/-- SHA-256 message padding: append `0x80`, zero bytes to 56 mod 64, then the
big-endian 64-bit bit length. -/
def sha256pad (msg : List Nat) : List Nat :=
  let len := msg.length
  let k := (119 - (len % 64)) % 64
  msg ++ [128] ++ List.replicate k 0 ++
    (List.range 8).map (fun i => ((8 * len) >>> (8 * (7 - i))) % 256)

/-- Split a byte list into 64-byte blocks, structurally recursive on a fuel
bound so that the kernel can evaluate it (the fuel never runs out because
each step consumes at least one byte). -/
def chunks64Aux : Nat → List Nat → List (List Nat)
  | 0, _ => []
  | _, [] => []
  | fuel + 1, l => l.take 64 :: chunks64Aux fuel (l.drop 64)

/-- Split a byte list into 64-byte blocks. -/
def chunks64 (l : List Nat) : List (List Nat) :=
  chunks64Aux (l.length + 1) l

/-- The 16 big-endian 32-bit words of one 64-byte block. -/
def toWords (block : List Nat) : List Nat :=
  (List.range 16).map (fun i =>
    (block.getD (4 * i) 0) <<< 24 + (block.getD (4 * i + 1) 0) <<< 16 +
    (block.getD (4 * i + 2) 0) <<< 8 + block.getD (4 * i + 3) 0)

/-- One extension step of the SHA-256 message schedule. -/
def scheduleStep (w : List Nat) : List Nat :=
  let t := w.length
  let g := fun i => w.getD i 0
  w ++ [w32 (ssig1 (g (t - 2)) + g (t - 7) + ssig0 (g (t - 15)) + g (t - 16))]

/-- The 64-word SHA-256 message schedule of one block. -/
def schedule (block : List Nat) : List Nat :=
  scheduleStep^[48] (toWords block)

/-- The SHA-256 round constants. -/
def sha256K : List Nat :=
  [1116352408, 1899447441, 3049323471, 3921009573,
   961987163, 1508970993, 2453635748, 2870763221,
   3624381080, 310598401, 607225278, 1426881987,
   1925078388, 2162078206, 2614888103, 3248222580,
   3835390401, 4022224774, 264347078, 604807628,
   770255983, 1249150122, 1555081692, 1996064986,
   2554220882, 2821834349, 2952996808, 3210313671,
   3336571891, 3584528711, 113926993, 338241895,
   666307205, 773529912, 1294757372, 1396182291,
   1695183700, 1986661051, 2177026350, 2456956037,
   2730485921, 2820302411, 3259730800, 3345764771,
   3516065817, 3600352804, 4094571909, 275423344,
   430227734, 506948616, 659060556, 883997877,
   958139571, 1322822218, 1537002063, 1747873779,
   1955562222, 2024104815, 2227730452, 2361852424,
   2428436474, 2756734187, 3204031479, 3329325298]

/-- One SHA-256 compression round applied to the 8-word working state. -/
def sha256Round (hs : List Nat) (kw : Nat × Nat) : List Nat :=
  match hs with
  | [a, b, c, d, e, f, g, hh] =>
      let S1 := bsig1 e
      let ch := (e &&& f) ^^^ ((e ^^^ 4294967295) &&& g)
      let temp1 := w32 (hh + S1 + ch + kw.1 + kw.2)
      let S0 := bsig0 a
      let maj := (a &&& b) ^^^ (a &&& c) ^^^ (b &&& c)
      let temp2 := w32 (S0 + maj)
      [w32 (temp1 + temp2), a, b, c, w32 (d + temp1), e, f, g]
  | _ => hs

/-- SHA-256 compression of one 64-byte block into the running hash. -/
def sha256Compress (hs block : List Nat) : List Nat :=
  let out := (sha256K.zip (schedule block)).foldl sha256Round hs
  List.zipWith (fun x y => w32 (x + y)) hs out

/-- The SHA-256 initial hash values. -/
def sha256Init : List Nat :=
  [1779033703, 3144134277, 1013904242, 2773480762,
   1359893119, 2600822924, 528734635, 1541459225]

/-- The eight 32-bit words of the SHA-256 digest of a byte list. -/
def sha256Words (msg : List Nat) : List Nat :=
  (chunks64 (sha256pad msg)).foldl sha256Compress sha256Init

/-- One lower-case hex digit. -/
def hexChar (n : Nat) : Char := "0123456789abcdef".data.getD n '0'

/-- Eight lower-case hex digits of a 32-bit word, big-endian. -/
def toHex8 (n : Nat) : String :=
  String.mk ((List.range 8).map (fun i => hexChar ((n >>> (4 * (7 - i))) % 16)))

/-- `hashlib.sha256(bytes).hexdigest()`. -/
def sha256hex (msg : List Nat) : String :=
  String.join ((sha256Words msg).map toHex8)


/-- One record of the `documents` collection,
`document_storage.py` lines 24-32 (the `upload_timestamp` is set by the
store and carries no information for these proofs). -/
structure DocMeta where
  session_id : String
  filename : String
  file_size : Nat
  content_hash : String
  chunk_count : Nat
  status : String
deriving DecidableEq

/-- `DocumentStorage.save_document_metadata`, `document_storage.py`
lines 20-37; `ok = false` models the MongoDB insert raising, in which case
nothing is written and `False` is returned. -/
def save_document_metadata (docs : List DocMeta) (ok : Bool) (m : DocMeta) :
    List DocMeta × Bool :=
  if ok then (docs ++ [m], true) else (docs, false)

/-- The state of `DocumentProcessor`: the process-wide FAISS index (a list of
indexed chunk texts; `none` = not yet created) and the `documents`
collection. -/
structure DocProcessor where
  vector_store : Option (List String)
  saved_docs : List DocMeta
deriving DecidableEq

/-- `DocumentProcessor.process_pdf_file`, `document_storage.py` lines 53-87.
External collaborators are oracle inputs: `file_bytes` is the raw content of
the file at `file_path` (so `os.path.getsize` is its length), `pages` is
what `PyPDFLoader(...).load()` extracts, `split` is the
`RecursiveCharacterTextSplitter`, and `persistOk` is whether the metadata
insert succeeds. Returns the new processor state with the
`(success, message, chunk_count)` triple of the Python code. -/
def process_pdf_file (dp : DocProcessor) (file_path filename session_id : String)
    (file_bytes : List Nat) (pages : List String)
    (split : List String → List String) (persistOk : Bool) :
    DocProcessor × (Bool × String × Nat) :=
  if !(pyEndswith (pyLower file_path) ".pdf") then
    (dp, (false, "Only PDF files are supported", 0))
  else if pages.isEmpty then
    (dp, (false, "Failed to load PDF document", 0))
  else
    let chunks := split pages
    if chunks.isEmpty then
      (dp, (false, "Failed to create document chunks", 0))
    else
      let content_hash := sha256hex file_bytes
      let dp1 : DocProcessor :=
        { dp with
          vector_store :=
            match dp.vector_store with
            | none => some chunks
            | some l => some (l ++ chunks) }
      let file_size := file_bytes.length
      let m : DocMeta :=
        ⟨session_id, filename, file_size, content_hash, chunks.length, "processed"⟩
      let saved := save_document_metadata dp1.saved_docs persistOk m
      let dp2 : DocProcessor := { dp1 with saved_docs := saved.1 }
      if saved.2 then
        (dp2, (true,
          "Processed " ++ filename ++ " with " ++ toString chunks.length ++ " chunks",
          chunks.length))
      else (dp2, (false, "Failed to save document metadata", 0))

/-! ## Theorems -/

theorem sim_anti {d1 d2 : ℚ} (h1 : 0 ≤ d1) (h : d1 ≤ d2) : sim d2 ≤ sim d1 := by
  unfold sim
  exact one_div_le_one_div_of_le (by linarith) (by linarith)

theorem pairwise_take_drop {α : Type} {R : α → α → Prop} {l : List α} (n : Nat)
    (h : l.Pairwise R) : ∀ a ∈ l.take n, ∀ b ∈ l.drop n, R a b := by
  rw [← List.take_append_drop n l] at h
  exact (List.pairwise_append.1 h).2.2

theorem retainB_true_iff (p : String × ℚ) :
    retainB p = true ↔ (2 : ℚ) / 5 < sim p.2 ∧ pyStrip p.1 ≠ "" := by
  simp [retainB]

/-- C7: for every raw distance d ≥ 0, the similarity is sim d = 1/(1+d),
which lies in (0, 1], and it is strictly decreasing as d increases. -/
theorem similarity_unit_interval_strict_anti (d d1 d2 : ℚ)
    (hd : 0 ≤ d) (h1 : 0 ≤ d1) (h12 : d1 < d2) :
    0 < sim d ∧ sim d ≤ 1 ∧ sim d2 < sim d1 := by
  unfold sim
  refine ⟨one_div_pos.mpr (by linarith), ?_, ?_⟩
  · rw [div_le_one (by linarith)]
    linarith
  · exact one_div_lt_one_div_of_lt (by linarith) (by linarith)

theorem similarity_unit_interval_strict_anti_witness :
    0 < sim 0 ∧ sim 0 ≤ 1 ∧ sim 2 < sim 1 :=
  similarity_unit_interval_strict_anti 0 1 2 (by norm_num) (by norm_num) (by norm_num)

/-- C3: a chunk is retained iff its similarity is strictly greater than 0.4
and its trimmed text is non-empty; a chunk whose similarity equals exactly
0.4 (raw distance 3/2) is excluded. -/
theorem chunk_retention_iff (rs : List (String × ℚ)) (p : String × ℚ) :
    (p ∈ retainedPairs rs ↔ p ∈ rs ∧ (2 : ℚ) / 5 < sim p.2 ∧ pyStrip p.1 ≠ "") ∧
    sim ((3 : ℚ) / 2) = 2 / 5 ∧
    (p.2 = 3 / 2 → p ∉ retainedPairs rs) := by
  have hiff : p ∈ retainedPairs rs ↔ p ∈ rs ∧ (2 : ℚ) / 5 < sim p.2 ∧ pyStrip p.1 ≠ "" := by
    simp [retainedPairs, retainB, List.mem_filter, and_assoc]
  have hb : sim ((3 : ℚ) / 2) = 2 / 5 := by norm_num [sim]
  refine ⟨hiff, hb, ?_⟩
  intro h2 hmem
  have hlt := (hiff.1 hmem).2.1
  rw [h2, hb] at hlt
  exact lt_irrefl _ hlt

theorem chunk_retention_iff_witness :
    ((("hi", (1 : ℚ)) ∈ retainedPairs [("hi", (1 : ℚ))] ↔
      ("hi", (1 : ℚ)) ∈ [("hi", (1 : ℚ))] ∧ (2 : ℚ) / 5 < sim 1 ∧ pyStrip "hi" ≠ "") ∧
    sim ((3 : ℚ) / 2) = 2 / 5 ∧
    ((1 : ℚ) = 3 / 2 → ("hi", (1 : ℚ)) ∉ retainedPairs [("hi", (1 : ℚ))])) :=
  chunk_retention_iff [("hi", (1 : ℚ))] ("hi", (1 : ℚ))

theorem retainB_alpha : retainB ("alpha", (0 : ℚ)) = true := by
  rw [retainB_true_iff]
  exact ⟨by norm_num [sim], by decide⟩

theorem retainB_beta : retainB ("beta", (1 : ℚ)) = true := by
  rw [retainB_true_iff]
  exact ⟨by norm_num [sim], by decide⟩

theorem retainB_gamma : retainB ("gamma", (2 : ℚ)) = false := by
  rw [Bool.eq_false_iff, Ne, retainB_true_iff]
  intro h
  have := h.1
  norm_num [sim] at this

theorem retained_example :
    retainedPairs [("alpha", (0 : ℚ)), ("beta", 1), ("gamma", 2)] =
      [("alpha", (0 : ℚ)), ("beta", 1)] := by
  simp [retainedPairs, List.filter_cons, retainB_alpha, retainB_beta, retainB_gamma]

/-- C5: when the retained set is non-empty and the raw results are sorted by
ascending distance (as FAISS returns them) with non-negative distances, the
grounded context is the text of at most the two highest-similarity retained
chunks, joined with a blank-line separator. -/
theorem grounded_context_top2 (rs : List (String × ℚ))
    (hsorted : rs.Pairwise (fun a b => a.2 ≤ b.2))
    (hpos : ∀ p ∈ rs, 0 ≤ p.2)
    (hne : retainedPairs rs ≠ []) :
    pdf_retrieval_tool (some (SearchOutcome.results rs)) =
      "PDF Content: " ++ String.intercalate "\n\n" ((relevant_content rs).take 2) ∧
    ((relevant_content rs).take 2).length ≤ 2 ∧
    ∀ p ∈ (retainedPairs rs).take 2, ∀ q ∈ (retainedPairs rs).drop 2,
      sim q.2 ≤ sim p.2 := by
  have hrsne : rs ≠ [] := by
    intro h
    exact hne (by simp [retainedPairs, h])
  have hrcne : relevant_content rs ≠ [] := by
    simpa [relevant_content] using hne
  refine ⟨?_, List.length_take_le _ _, ?_⟩
  · simp [pdf_retrieval_tool, List.isEmpty_iff, hrsne, hrcne]
  · intro p hp q hq
    have hsorted2 : (retainedPairs rs).Pairwise (fun a b => a.2 ≤ b.2) :=
      hsorted.filter _
    have hR : p.2 ≤ q.2 := pairwise_take_drop 2 hsorted2 p hp q hq
    have hpmem : p ∈ rs :=
      List.Sublist.mem (List.mem_of_mem_take hp) (List.filter_sublist rs)
    exact sim_anti (hpos p hpmem) hR

theorem grounded_context_top2_witness :
    (pdf_retrieval_tool (some (SearchOutcome.results
        [("alpha", (0 : ℚ)), ("beta", 1), ("gamma", 2)])) =
      "PDF Content: " ++ String.intercalate "\n\n"
        ((relevant_content [("alpha", (0 : ℚ)), ("beta", 1), ("gamma", 2)]).take 2) ∧
    ((relevant_content [("alpha", (0 : ℚ)), ("beta", 1), ("gamma", 2)]).take 2).length ≤ 2 ∧
    ∀ p ∈ (retainedPairs [("alpha", (0 : ℚ)), ("beta", 1), ("gamma", 2)]).take 2,
      ∀ q ∈ (retainedPairs [("alpha", (0 : ℚ)), ("beta", 1), ("gamma", 2)]).drop 2,
        sim q.2 ≤ sim p.2) :=
  grounded_context_top2 [("alpha", (0 : ℚ)), ("beta", 1), ("gamma", 2)]
    (by norm_num [List.pairwise_cons])
    (by intro p hp; fin_cases hp <;> norm_num)
    (by rw [retained_example]; exact List.cons_ne_nil _ _)

/-- C6: the external capability is asked for at most 5 raw results, at most 3
snippets with non-empty content are selected from them, and each selected
snippet truncates its content to at most 400 characters and tags it with its
source URL. -/
theorem web_snippets_bounded (provider : List WebResult) :
    (tavily_tool_invoke provider).length ≤ 5 ∧
    (selectedPairs (tavily_tool_invoke provider)).length ≤ 3 ∧
    ∀ p ∈ selectedPairs (tavily_tool_invoke provider),
      pyStrip (p.2.content.getD "") ≠ "" ∧
      (pySlice (p.2.content.getD "No content") 400).length ≤ 400 ∧
      snippetText p.1 p.2 =
        "Source " ++ toString p.1 ++ " (" ++ p.2.url.getD "No URL" ++ "): " ++
          pySlice (p.2.content.getD "No content") 400 ++ "..." := by
  refine ⟨List.length_take_le _ _, ?_, ?_⟩
  · calc (selectedPairs (tavily_tool_invoke provider)).length
        ≤ (List.enumFrom 1 ((tavily_tool_invoke provider).take 3)).length :=
          List.length_filter_le _ _
      _ = ((tavily_tool_invoke provider).take 3).length := List.enumFrom_length
      _ ≤ 3 := List.length_take_le _ _
  · intro p hp
    refine ⟨of_decide_eq_true (List.mem_filter.1 hp).2, ?_, rfl⟩
    show ((p.2.content.getD "No content").data.take 400).length ≤ 400
    exact List.length_take_le _ _

theorem web_snippets_bounded_witness :
    ((tavily_tool_invoke [⟨some "http://a", some "hello"⟩, ⟨none, none⟩]).length ≤ 5 ∧
    (selectedPairs (tavily_tool_invoke [⟨some "http://a", some "hello"⟩, ⟨none, none⟩])).length ≤ 3 ∧
    ∀ p ∈ selectedPairs (tavily_tool_invoke [⟨some "http://a", some "hello"⟩, ⟨none, none⟩]),
      pyStrip (p.2.content.getD "") ≠ "" ∧
      (pySlice (p.2.content.getD "No content") 400).length ≤ 400 ∧
      snippetText p.1 p.2 =
        "Source " ++ toString p.1 ++ " (" ++ p.2.url.getD "No URL" ++ "): " ++
          pySlice (p.2.content.getD "No content") 400 ++ "...") :=
  web_snippets_bounded [⟨some "http://a", some "hello"⟩, ⟨none, none⟩]
theorem save_session_fst (st : Storage) (sid : String) (hs : sid ≠ "") :
    (save_session st sid).1 = { st with sessions := st.sessions ++ [sid] } := by
  simp [save_session, hs]

theorem save_message_fst (st : Storage) (sid msg role : String)
    (hs : sid ≠ "") (hm : msg ≠ "")
    (hr : role = "user" ∨ role = "assistant" ∨ role = "system") :
    (save_message st sid msg role).1.history = st.history ++ [(sid, role, msg)] ∧
    (save_message st sid msg role).2 = true := by
  have hrne : role ≠ "" := by rcases hr with h | h | h <;> subst h <;> decide
  have hcond : (sid == "" || msg == "" || role == "") = false := by
    simp [hs, hm, hrne]
  have hrole : (role == "user" || role == "assistant" || role == "system") = true := by
    rcases hr with h | h | h <;> subst h <;> decide
  rw [save_message, hcond]
  simp only [Bool.false_eq_true, if_false, hrole, Bool.not_true, if_neg]
  by_cases hg : get_session st sid
  · simp [hg]
  · simp [hg, save_session_fst st sid hs]

/-- C9: every turn written by save_message has a valid role, non-empty
content, and a session record that exists afterwards (created by the call if
absent); a call with an empty session id, empty content, or an invalid role
returns failure and writes nothing. -/
theorem save_message_invariants (st : Storage) (sid msg role : String) :
    ((sid = "" ∨ msg = "" ∨ ¬(role = "user" ∨ role = "assistant" ∨ role = "system")) →
      save_message st sid msg role = (st, false)) ∧
    ((save_message st sid msg role).2 = true →
      (save_message st sid msg role).1.history = st.history ++ [(sid, role, msg)] ∧
      (role = "user" ∨ role = "assistant" ∨ role = "system") ∧
      msg ≠ "" ∧
      sid ∈ (save_message st sid msg role).1.sessions) := by
  constructor
  · intro h
    by_cases h1 : (sid == "" || msg == "" || role == "") = true
    · rw [save_message, h1]
      simp
    · have hs : sid ≠ "" := by simp at h1; exact h1.1.1
      have hm : msg ≠ "" := by simp at h1; exact h1.1.2
      have hrole : ¬(role = "user" ∨ role = "assistant" ∨ role = "system") := by
        rcases h with h | h | h
        · exact absurd h hs
        · exact absurd h hm
        · exact h
      have hr2 : (role == "user" || role == "assistant" || role == "system") = false := by
        simp only [Bool.or_eq_false_iff, beq_eq_false_iff_ne, Ne]
        tauto
      rw [save_message]
      rw [if_neg (by simp [h1]), hr2]
      simp
  · intro h2
    by_cases h1 : (sid == "" || msg == "" || role == "") = true
    · rw [save_message, h1] at h2
      simp at h2
    · by_cases hr2 : (role == "user" || role == "assistant" || role == "system") = true
      · have hs : sid ≠ "" := by simp at h1; exact h1.1.1
        have hm : msg ≠ "" := by simp at h1; exact h1.1.2
        have hr : role = "user" ∨ role = "assistant" ∨ role = "system" :=
          or_assoc.1 (by simpa using hr2)
        refine ⟨(save_message_fst st sid msg role hs hm hr).1, hr, hm, ?_⟩
        rw [save_message]
        rw [if_neg (by simp [h1]), hr2]
        simp only [Bool.not_true, if_neg (by simp : ¬false = true)]
        by_cases hg : get_session st sid
        · have : sid ∈ st.sessions := by
            have := hg
            rw [get_session] at this
            exact List.elem_iff.1 this
          simp [hg, this]
        · simp [hg, save_session_fst st sid hs]
      · rw [save_message] at h2
        rw [if_neg (by simp [h1]), if_pos (by simp [hr2])] at h2
        simp at h2

theorem save_message_invariants_witness :
    save_message ⟨[], []⟩ "s" "" "user" = (⟨[], []⟩, false) :=
  (save_message_invariants ⟨[], []⟩ "s" "" "user").1 (Or.inr (Or.inl rfl))
theorem string_append_ne_empty_left (s t : String) (h : s ≠ "") : s ++ t ≠ "" := by
  intro he
  apply h
  have hd : (s ++ t).data = ([] : List Char) := by rw [he]
  rw [String.data_append] at hd
  obtain ⟨d⟩ := s
  have : d = [] := (List.append_eq_nil.1 hd).1
  rw [this]

theorem final_answer_guard_ne_empty (a : String) :
    (if pyStrip a == "" then apologyText else a) ≠ "" := by
  by_cases hc : (pyStrip a == "") = true
  · rw [if_pos hc]
    decide
  · rw [if_neg hc]
    intro he
    apply hc
    rw [he]
    decide

/-- C1 counterexample: a retrieval-stage execution failure (an `Error:`
result, not a missing index) does NOT end the run with the no-documents
message: the workflow routes to web search and the web searcher runs. -/
theorem error_routes_to_web_counterexample :
    pyStartswith (pdf_retrieval_tool (some (SearchOutcome.failure "boom"))) "Error:" = true ∧
    route_after_pdf (pdf_search_node (fun _ => none)
      (some (SearchOutcome.failure "boom"))
      ⟨[], "q", "t", false, false, "", false⟩) = "web_search" ∧
    ((RAGPipeline.query (fun _ => none) (TavilyOutcome.ok []) none
        ⟨⟨[], []⟩, some (SearchOutcome.failure "boom"), false⟩ "q" "t").graphRun.map
      AgentState.web_searched) = some true ∧
    (RAGPipeline.query (fun _ => none) (TavilyOutcome.ok []) none
        ⟨⟨[], []⟩, some (SearchOutcome.failure "boom"), false⟩ "q" "t").answer ≠
      "Error: No PDF documents uploaded yet." := by
  exact ⟨rfl, rfl, rfl, by decide⟩

/-- C1 (amended): only the missing-index condition short-circuits to the end
with the fixed no-documents message and no graph (hence no web search) run;
an execution failure of the index query is routed like not-found, so the
workflow falls through to the web searcher. -/
theorem no_index_ends_error_falls_through (llm : LLM) (web : TavilyOutcome)
    (gf : Option String) (stor : Storage) (g : Bool) (q tid e : String)
    (hgf : gf = none) :
    ((RAGPipeline.query llm web gf ⟨stor, none, g⟩ q tid).answer =
        "Error: No PDF documents uploaded yet. Please upload a PDF first." ∧
      (RAGPipeline.query llm web gf ⟨stor, none, g⟩ q tid).graphRun = none) ∧
    (∀ st : AgentState,
      route_after_pdf (pdf_search_node llm (some (SearchOutcome.failure e)) st) =
        "web_search") ∧
    ((RAGPipeline.query llm web gf ⟨stor, some (SearchOutcome.failure e), g⟩ q tid).graphRun.map
      AgentState.web_searched) = some true := by
  subst hgf
  exact ⟨⟨rfl, rfl⟩, fun st => rfl, rfl⟩

theorem no_index_ends_error_falls_through_witness :
    (((RAGPipeline.query (fun _ => none) (TavilyOutcome.ok []) none
        ⟨⟨[], []⟩, none, false⟩ "q" "t").answer =
        "Error: No PDF documents uploaded yet. Please upload a PDF first." ∧
      (RAGPipeline.query (fun _ => none) (TavilyOutcome.ok []) none
        ⟨⟨[], []⟩, none, false⟩ "q" "t").graphRun = none) ∧
    (∀ st : AgentState,
      route_after_pdf (pdf_search_node (fun _ => none)
        (some (SearchOutcome.failure "x")) st) = "web_search") ∧
    ((RAGPipeline.query (fun _ => none) (TavilyOutcome.ok []) none
        ⟨⟨[], []⟩, some (SearchOutcome.failure "x"), false⟩ "q" "t").graphRun.map
      AgentState.web_searched) = some true) :=
  no_index_ends_error_falls_through (fun _ => none) (TavilyOutcome.ok []) none
    ⟨[], []⟩ false "q" "t" "x" rfl

/-- C2 (amended): for every call of the query operation with a non-empty
query and a non-empty session id, exactly two ChatTurns are appended to the
session history — first the user turn with the original query, then the
assistant turn with the returned answer — on the success path and on every
internal error path alike. -/
theorem query_appends_two_turns (llm : LLM) (web : TavilyOutcome)
    (gf : Option String) (p : Pipeline) (q tid : String)
    (hq : q ≠ "") (ht : tid ≠ "") :
    (RAGPipeline.query llm web gf p q tid).pipeline.storage.history =
      p.storage.history ++
        [(tid, "user", q),
         (tid, "assistant", (RAGPipeline.query llm web gf p q tid).answer)] := by
  obtain ⟨stor, vs, g⟩ := p
  have huser := save_message_fst stor tid q "user" ht hq (Or.inl rfl)
  cases vs with
  | none =>
      have herr : ("Error: No PDF documents uploaded yet. Please upload a PDF first." : String) ≠ "" := by
        decide
      have hassist := save_message_fst (save_message stor tid q "user").1 tid
        "Error: No PDF documents uploaded yet. Please upload a PDF first."
        "assistant" ht herr (Or.inr (Or.inl rfl))
      show (save_message (save_message stor tid q "user").1 tid
          "Error: No PDF documents uploaded yet. Please upload a PDF first."
          "assistant").1.history =
        stor.history ++ [(tid, "user", q),
          (tid, "assistant",
            "Error: No PDF documents uploaded yet. Please upload a PDF first.")]
      rw [hassist.1, huser.1]
      simp
  | some so =>
      cases gf with
      | some e =>
          have herr : ("Sorry, I encountered an error while processing your query: " ++ e) ≠ "" :=
            string_append_ne_empty_left _ _ (by decide)
          have hassist := save_message_fst (save_message stor tid q "user").1 tid
            ("Sorry, I encountered an error while processing your query: " ++ e)
            "assistant" ht herr (Or.inr (Or.inl rfl))
          show (save_message (save_message stor tid q "user").1 tid
              ("Sorry, I encountered an error while processing your query: " ++ e)
              "assistant").1.history =
            stor.history ++ [(tid, "user", q),
              (tid, "assistant",
                "Sorry, I encountered an error while processing your query: " ++ e)]
          rw [hassist.1, huser.1]
          simp
      | none =>
          have hans := final_answer_guard_ne_empty
            (run_workflow llm (some so) web
              ⟨[Msg.human (if historyRelevant q &&
                  !(historyContext (load_history stor tid 10) == "") then
                    historyPrompt (historyContext (load_history stor tid 10)) q
                  else "Current Query: " ++ q)],
                q, tid, false, false, "", false⟩).final_answer
          have hassist := save_message_fst (save_message stor tid q "user").1 tid _
            "assistant" ht hans (Or.inr (Or.inl rfl))
          show (save_message (save_message stor tid q "user").1 tid _ "assistant").1.history =
            stor.history ++ [(tid, "user", q), (tid, "assistant", _)]
          rw [hassist.1, huser.1, List.append_assoc]
          exact rfl
theorem query_appends_two_turns_witness :
    ("hello" : String) ≠ "" ∧ ("t" : String) ≠ "" ∧
    (RAGPipeline.query (fun _ => none) (TavilyOutcome.ok []) none
        ⟨⟨[], []⟩, none, false⟩ "hello" "t").pipeline.storage.history =
      (⟨⟨[], []⟩, none, false⟩ : Pipeline).storage.history ++
        [("t", "user", "hello"),
         ("t", "assistant",
           (RAGPipeline.query (fun _ => none) (TavilyOutcome.ok []) none
             ⟨⟨[], []⟩, none, false⟩ "hello" "t").answer)] :=
  ⟨by decide, by decide,
   query_appends_two_turns (fun _ => none) (TavilyOutcome.ok []) none
     ⟨⟨[], []⟩, none, false⟩ "hello" "t" (by decide) (by decide)⟩

/-- C2 counterexample: with an empty raw query, the user turn is rejected by
save_message, so the call appends exactly ONE turn (the assistant one), not
two. -/
theorem query_two_turns_counterexample :
    (RAGPipeline.query (fun _ => none) (TavilyOutcome.ok []) none
        ⟨⟨[], []⟩, none, false⟩ "" "t").pipeline.storage.history =
      [("t", "assistant",
        "Error: No PDF documents uploaded yet. Please upload a PDF first.")] ∧
    (RAGPipeline.query (fun _ => none) (TavilyOutcome.ok []) none
        ⟨⟨[], []⟩, none, false⟩ "" "t").pipeline.storage.history.length ≠ 2 := by
  refine ⟨?_, ?_⟩ <;> decide

theorem pdf_search_node_messages (llm : LLM) (vs : Option SearchOutcome)
    (st : AgentState) :
    ∃ tail, (pdf_search_node llm vs st).messages = st.messages ++ tail := by
  cases vs with
  | none => exact ⟨_, rfl⟩
  | some so =>
      unfold pdf_search_node
      dsimp only
      split
      · exact ⟨_, rfl⟩
      · exact ⟨_, rfl⟩

theorem web_search_node_messages (llm : LLM) (web : TavilyOutcome)
    (st : AgentState) :
    ∃ tail, (web_search_node llm web st).messages = st.messages ++ tail :=
  ⟨_, rfl⟩

theorem run_workflow_messages (llm : LLM) (vs : Option SearchOutcome)
    (web : TavilyOutcome) (st : AgentState) :
    ∃ tail, (run_workflow llm vs web st).messages = st.messages ++ tail := by
  obtain ⟨t1, h1⟩ := pdf_search_node_messages llm vs st
  unfold run_workflow
  dsimp only
  split
  · exact ⟨t1, h1⟩
  · obtain ⟨t2, h2⟩ :=
      web_search_node_messages llm web (pdf_search_node llm vs st)
    exact ⟨t1 ++ t2, by rw [h2, h1, List.append_assoc]⟩

theorem promptOf_some (p : Pipeline) (a c : String) (res : AgentState)
    (rest : List Msg) (h : res.messages = Msg.human c :: rest) :
    promptOf ⟨p, a, some res⟩ = c := by
  unfold promptOf
  dsimp only
  rw [h]

theorem promptOf_query (llm : LLM) (web : TavilyOutcome) (stor : Storage)
    (vs : SearchOutcome) (g : Bool) (q tid : String) :
    promptOf (RAGPipeline.query llm web none ⟨stor, vs, g⟩ q tid) =
      if historyRelevant q && !(historyContext (load_history stor tid 10) == "") then
        historyPrompt (historyContext (load_history stor tid 10)) q
      else "Current Query: " ++ q := by
  obtain ⟨tail, htail⟩ := run_workflow_messages llm (some vs) web
    ⟨[Msg.human (if historyRelevant q &&
        !(historyContext (load_history stor tid 10) == "") then
          historyPrompt (historyContext (load_history stor tid 10)) q
        else "Current Query: " ++ q)], q, tid, false, false, "", false⟩
  exact promptOf_some _ _ _ _ tail (by rw [htail]; rfl)
/-- C4 (amended): with the index present, the query prompt prepends the
role-labelled context of the FIRST (oldest) up-to-10 persisted turns of the
session when the raw query contains a cue word and that context is
non-empty; otherwise the raw query is used unmodified. -/
theorem query_history_gate (llm : LLM) (web : TavilyOutcome) (stor : Storage)
    (vs : SearchOutcome) (g : Bool) (q tid : String) :
    (historyRelevant q = true →
      historyContext (load_history stor tid 10) ≠ "" →
      promptOf (RAGPipeline.query llm web none ⟨stor, vs, g⟩ q tid) =
        historyPrompt (historyContext (load_history stor tid 10)) q) ∧
    (historyRelevant q = false ∨ historyContext (load_history stor tid 10) = "" →
      promptOf (RAGPipeline.query llm web none ⟨stor, vs, g⟩ q tid) =
        "Current Query: " ++ q) ∧
    load_history stor tid 10 =
      ((stor.history.filter (fun t => t.1 == tid)).map
        (fun t => (t.2.1, t.2.2))).take 10 := by
  refine ⟨?_, ?_, rfl⟩
  · intro h1 h2
    have hc : (historyRelevant q &&
        !(historyContext (load_history stor tid 10) == "")) = true := by
      rw [h1]
      simp [h2]
    rw [promptOf_query, if_pos hc]
  · intro h
    have hc : ¬((historyRelevant q &&
        !(historyContext (load_history stor tid 10) == "")) = true) := by
      rcases h with h | h <;> simp [h]
    rw [promptOf_query, if_neg hc]

theorem query_history_gate_witness :
    ((historyRelevant "what did you say earlier" = true →
      historyContext (load_history ⟨["t"], [("t", "user", "hi there")]⟩ "t" 10) ≠ "" →
      promptOf (RAGPipeline.query (fun _ => none) (TavilyOutcome.ok []) none
          ⟨⟨["t"], [("t", "user", "hi there")]⟩, SearchOutcome.results [], false⟩
          "what did you say earlier" "t") =
        historyPrompt
          (historyContext (load_history ⟨["t"], [("t", "user", "hi there")]⟩ "t" 10))
          "what did you say earlier") ∧
    (historyRelevant "what did you say earlier" = false ∨
        historyContext (load_history ⟨["t"], [("t", "user", "hi there")]⟩ "t" 10) = "" →
      promptOf (RAGPipeline.query (fun _ => none) (TavilyOutcome.ok []) none
          ⟨⟨["t"], [("t", "user", "hi there")]⟩, SearchOutcome.results [], false⟩
          "what did you say earlier" "t") =
        "Current Query: " ++ "what did you say earlier") ∧
    load_history ⟨["t"], [("t", "user", "hi there")]⟩ "t" 10 =
      (((Storage.history ⟨["t"], [("t", "user", "hi there")]⟩).filter
        (fun t => t.1 == "t")).map (fun t => (t.2.1, t.2.2))).take 10) :=
  query_history_gate (fun _ => none) (TavilyOutcome.ok [])
    ⟨["t"], [("t", "user", "hi there")]⟩ (SearchOutcome.results []) false
    "what did you say earlier" "t"

set_option maxRecDepth 4000 in
/-- C4 counterexample: with 11 persisted turns for the session, the built
prompt contains the FIRST (oldest) turn and does NOT contain the most recent
(11th) turn, so the injected context is not the last 10 persisted turns. -/
theorem history_first_not_last_counterexample :
    historyRelevant "what did you say earlier" = true ∧
    strContains (promptOf (RAGPipeline.query (fun _ => none) (TavilyOutcome.ok []) none
        ⟨⟨["t"], [("t", "user", "a01z"), ("t", "user", "a02z"), ("t", "user", "a03z"),
          ("t", "user", "a04z"), ("t", "user", "a05z"), ("t", "user", "a06z"),
          ("t", "user", "a07z"), ("t", "user", "a08z"), ("t", "user", "a09z"),
          ("t", "user", "a10z"), ("t", "user", "a11z")]⟩,
          some (SearchOutcome.results []), false⟩
        "what did you say earlier" "t")) "a01z" = true ∧
    strContains (promptOf (RAGPipeline.query (fun _ => none) (TavilyOutcome.ok []) none
        ⟨⟨["t"], [("t", "user", "a01z"), ("t", "user", "a02z"), ("t", "user", "a03z"),
          ("t", "user", "a04z"), ("t", "user", "a05z"), ("t", "user", "a06z"),
          ("t", "user", "a07z"), ("t", "user", "a08z"), ("t", "user", "a09z"),
          ("t", "user", "a10z"), ("t", "user", "a11z")]⟩,
          some (SearchOutcome.results []), false⟩
        "what did you say earlier" "t")) "a11z" = false := by
  refine ⟨?_, ?_, ?_⟩ <;> decide
theorem ingest_unfold_persist (dp : DocProcessor) (fp fn sid : String)
    (bytes : List Nat) (pages : List String) (split : List String → List String)
    (persistOk : Bool)
    (hpdf : pyEndswith (pyLower fp) ".pdf" = true)
    (hpages : pages.isEmpty = false) (hchunks : (split pages).isEmpty = false) :
    process_pdf_file dp fp fn sid bytes pages split persistOk =
      (let dp1 : DocProcessor :=
        { dp with
          vector_store :=
            match dp.vector_store with
            | none => some (split pages)
            | some l => some (l ++ split pages) }
      let m : DocMeta :=
        ⟨sid, fn, bytes.length, sha256hex bytes, (split pages).length, "processed"⟩
      if persistOk then
        ({ dp1 with saved_docs := dp1.saved_docs ++ [m] },
          (true, "Processed " ++ fn ++ " with " ++ toString (split pages).length ++
            " chunks", (split pages).length))
      else (dp1, (false, "Failed to save document metadata", 0))) := by
  rw [process_pdf_file, hpdf]
  simp only [Bool.not_true, Bool.false_eq_true, if_false, hpages, hchunks,
    save_document_metadata]
  cases persistOk <;> rfl

/-- C8: when the metadata persistence step fails after the vector index has
been created or extended with the new chunks, the ingestion call returns
failure, no metadata is recorded, but the index update is not rolled back —
the chunks stay in the index. -/
theorem ingest_not_transactional (dp : DocProcessor) (fp fn sid : String)
    (bytes : List Nat) (pages : List String) (split : List String → List String)
    (hpdf : pyEndswith (pyLower fp) ".pdf" = true)
    (hpages : pages.isEmpty = false) (hchunks : (split pages).isEmpty = false) :
    (process_pdf_file dp fp fn sid bytes pages split false).2.1 = false ∧
    (process_pdf_file dp fp fn sid bytes pages split false).2.2.1 =
      "Failed to save document metadata" ∧
    (process_pdf_file dp fp fn sid bytes pages split false).1.vector_store =
      some (dp.vector_store.getD [] ++ split pages) ∧
    (process_pdf_file dp fp fn sid bytes pages split false).1.saved_docs =
      dp.saved_docs := by
  rw [ingest_unfold_persist dp fp fn sid bytes pages split false hpdf hpages hchunks]
  cases hvs : dp.vector_store <;> simp [hvs]

theorem ingest_not_transactional_witness :
    pyEndswith (pyLower "doc.pdf") ".pdf" = true ∧
    (["page one"] : List String).isEmpty = false ∧
    ((fun l => l) ["page one"] : List String).isEmpty = false ∧
    ((process_pdf_file ⟨none, []⟩ "doc.pdf" "doc.pdf" "s" [1, 2] ["page one"]
        (fun l => l) false).2.1 = false ∧
    (process_pdf_file ⟨none, []⟩ "doc.pdf" "doc.pdf" "s" [1, 2] ["page one"]
        (fun l => l) false).2.2.1 = "Failed to save document metadata" ∧
    (process_pdf_file ⟨none, []⟩ "doc.pdf" "doc.pdf" "s" [1, 2] ["page one"]
        (fun l => l) false).1.vector_store =
      some ((Option.getD (DocProcessor.vector_store ⟨none, []⟩) []) ++
        (fun l => l) ["page one"]) ∧
    (process_pdf_file ⟨none, []⟩ "doc.pdf" "doc.pdf" "s" [1, 2] ["page one"]
        (fun l => l) false).1.saved_docs = DocProcessor.saved_docs ⟨none, []⟩) :=
  ⟨by decide, by decide, by decide,
    ingest_not_transactional ⟨none, []⟩ "doc.pdf" "doc.pdf" "s" [1, 2]
      ["page one"] (fun l => l) (by decide) (by decide) (by decide)⟩

theorem ingest_success_hash (dp : DocProcessor) (fp fn sid : String)
    (bytes : List Nat) (pages : List String) (split : List String → List String)
    (h : (process_pdf_file dp fp fn sid bytes pages split true).2.1 = true) :
    ((process_pdf_file dp fp fn sid bytes pages split true).1.saved_docs.getLast?).map
      DocMeta.content_hash = some (sha256hex bytes) := by
  by_cases c1 : pyEndswith (pyLower fp) ".pdf" = true
  · by_cases c2 : pages.isEmpty = true
    · rw [process_pdf_file, c1] at h
      simp [c2] at h
    · by_cases c3 : (split pages).isEmpty = true
      · rw [process_pdf_file, c1] at h
        simp [c2, c3] at h
      · rw [ingest_unfold_persist dp fp fn sid bytes pages split true c1
          (Bool.not_eq_true _ ▸ c2) (Bool.not_eq_true _ ▸ c3)]
        simp [List.getLast?_concat]
  · rw [process_pdf_file] at h
    simp [c1] at h

/-- C10: the content fingerprint recorded by a successful ingestion is the
SHA-256 hex digest of the raw file bytes alone, so ingesting byte-identical
content twice — with any filenames, sessions, extraction results or prior
processor states — records the same fingerprint both times. -/
theorem fingerprint_deterministic (dp1 dp2 : DocProcessor)
    (fp1 fp2 fn1 fn2 sid1 sid2 : String) (bytes : List Nat)
    (pages1 pages2 : List String) (split1 split2 : List String → List String)
    (h1 : (process_pdf_file dp1 fp1 fn1 sid1 bytes pages1 split1 true).2.1 = true)
    (h2 : (process_pdf_file dp2 fp2 fn2 sid2 bytes pages2 split2 true).2.1 = true) :
    ((process_pdf_file dp1 fp1 fn1 sid1 bytes pages1 split1 true).1.saved_docs.getLast?).map
        DocMeta.content_hash = some (sha256hex bytes) ∧
    ((process_pdf_file dp2 fp2 fn2 sid2 bytes pages2 split2 true).1.saved_docs.getLast?).map
        DocMeta.content_hash =
      ((process_pdf_file dp1 fp1 fn1 sid1 bytes pages1 split1 true).1.saved_docs.getLast?).map
        DocMeta.content_hash := by
  have e1 := ingest_success_hash dp1 fp1 fn1 sid1 bytes pages1 split1 h1
  have e2 := ingest_success_hash dp2 fp2 fn2 sid2 bytes pages2 split2 h2
  exact ⟨e1, by rw [e1, e2]⟩

theorem fingerprint_deterministic_witness :
    ((process_pdf_file ⟨none, []⟩ "a.pdf" "a.pdf" "s1" [1, 2, 3] ["p"]
        (fun l => l) true).2.1 = true ∧
    (process_pdf_file ⟨some ["old"], []⟩ "b.pdf" "b.pdf" "s2" [1, 2, 3] ["p", "q"]
        (fun l => l) true).2.1 = true) ∧
    ((process_pdf_file ⟨none, []⟩ "a.pdf" "a.pdf" "s1" [1, 2, 3] ["p"]
        (fun l => l) true).1.saved_docs.getLast?).map DocMeta.content_hash =
      some (sha256hex [1, 2, 3]) ∧
    ((process_pdf_file ⟨some ["old"], []⟩ "b.pdf" "b.pdf" "s2" [1, 2, 3] ["p", "q"]
        (fun l => l) true).1.saved_docs.getLast?).map DocMeta.content_hash =
      ((process_pdf_file ⟨none, []⟩ "a.pdf" "a.pdf" "s1" [1, 2, 3] ["p"]
        (fun l => l) true).1.saved_docs.getLast?).map DocMeta.content_hash :=
  ⟨⟨rfl, rfl⟩,
    fingerprint_deterministic ⟨none, []⟩ ⟨some ["old"], []⟩ "a.pdf" "b.pdf"
      "a.pdf" "b.pdf" "s1" "s2" [1, 2, 3] ["p"] ["p", "q"] (fun l => l)
      (fun l => l) rfl rfl⟩
